import Mathlib

/-!
Shallow embedding of the health module of the `consul_api` crate
(`src/health.rs`) and proofs about its status-aggregation algorithm and
its query-building facade.

The embedding is written from the source.  The collaborators that are not
part of the source file (the `api::Client` / `surf` transport, the
`agent::AgentService` and `catalog::Node` entities, `api::QueryOptions`)
are modelled from the specification's collaborator contracts and carry a
`Modelled from the spec:` note on their doc comments.
-/

namespace ConsulHealth

/-- HealthAny is special, and is used as a wild card, not as a specific
state (source constant `HEALTH_ANY`). -/
def HEALTH_ANY : String := "any"

/-- Source constant `HEALTH_PASSING`. -/
def HEALTH_PASSING : String := "passing"

/-- Source constant `HEALTH_WARNING`. -/
def HEALTH_WARNING : String := "warning"

/-- Source constant `HEALTH_CRITICAL`. -/
def HEALTH_CRITICAL : String := "critical"

/-- Source constant `HEALTH_MAINT`. -/
def HEALTH_MAINT : String := "maintenance"

/-- Source constant `SERVICE_HEALTH`. -/
def SERVICE_HEALTH : String := "service"

/-- Source constant `CONNECT_HEALTH`. -/
def CONNECT_HEALTH : String := "connect"

/-- Source constant `INGRESS_HEALTH`. -/
def INGRESS_HEALTH : String := "ingress"

/-- NODE_MAINT is the special key set by a node in maintenance mode. -/
def NODE_MAINT : String := "_node_maintenance"

/-- The service-maintenance id marker (the source constant whose name ends
in `PREFIX`; we shorten the Lean name). -/
def SERVICE_MAINT_PRE : String := "_service_maintenance:"

/-- Rust `Debug` formatting (`{:?}`) of a string that contains no character
needing an escape: the string is wrapped in double quotes.  The source
builds its regex pattern with the Debug formatter
(`format!("^{:?}", ...)`, src/health.rs line 142). -/
def rustDebugFmt (s : String) : String := "\"" ++ s ++ "\""

/-- The literal body of the anchored regex pattern the source compiles:
after the `^` anchor comes the Debug-formatted service-maintenance marker,
i.e. the 23-character literal `"_service_maintenance:"` including both
double-quote characters.  Every character of it is a regex literal. -/
def serviceMaintPat : String := rustDebugFmt SERVICE_MAINT_PRE

/-- Matching an anchored pattern of literal characters (`^lit`) against a
subject succeeds exactly when the subject starts with the literal. -/
def startsWithLit (s pat : String) : Bool := List.isPrefixOf pat.data s.data

/-- HealthCheckDefinition is used to store the details about a health
check's execution (src/health.rs lines 100-118).  Durations are modelled
as nanosecond counts. -/
structure HealthCheckDefinition where
  HTTP : Option String := none
  Header : Option (List (String × List String)) := none
  Method : Option String := none
  Body : Option String := none
  TLSServerName : Option String := none
  TLSSkipVerify : Option Bool := none
  TCP : Option String := none
  IntervalDuration : Option Nat := none
  TimeoutDuration : Option Nat := none
  DeregisterCriticalServiceAfterDuration : Option Nat := none
  Interval : Option Nat := none
  Timeout : Option Nat := none
  DeregisterCriticalServiceAfter : Option Nat := none
deriving DecidableEq, Repr

/-- HealthCheck is used to represent a single check (src/health.rs lines
77-95).  The Rust field `Type` is spelled `Type'` because `Type` is a Lean
keyword. -/
structure HealthCheck where
  Node : Option String := none
  CheckID : Option String := none
  Name : Option String := none
  Status : Option String := none
  Notes : Option String := none
  Output : Option String := none
  ServiceID : Option String := none
  ServiceName : Option String := none
  ServiceTags : Option (List String) := none
  Type' : Option String := none
  Namespace : Option String := none
  Definition : Option HealthCheckDefinition := none
  CreateIndex : Option Nat := none
  ModifyIndex : Option Nat := none
deriving DecidableEq, Repr

/-- HealthChecks is a collection of HealthCheck structs (the source
newtype over `Vec<HealthCheck>`). -/
abbrev HealthChecks := List HealthCheck

/-- The maintenance test of the aggregation loop (src/health.rs lines
140-148): the check has a CheckID and either it equals `NODE_MAINT` or the
compiled anchored pattern (see `serviceMaintPat`) matches it.  When this
holds the loop sets `maintenance = true` and continues. -/
def maintMatch (check : HealthCheck) : Bool :=
  match check.CheckID with
  | some id => decide (id = NODE_MAINT) || startsWithLit id serviceMaintPat
  | none => false

/-- The loop of `aggregates_status` (src/health.rs lines 134-184), with
the four mutable flags passed explicitly and the final flag-precedence
`return` as the base case.  An unrecognized or missing `Status` on a check
that did not take the maintenance branch returns the empty string at
once. -/
def aggLoop : List HealthCheck → Bool → Bool → Bool → Bool → String
  | [], passing, warning, critical, maintenance =>
    if maintenance then HEALTH_MAINT
    else if critical then HEALTH_CRITICAL
    else if warning then HEALTH_WARNING
    else if passing then HEALTH_PASSING
    else HEALTH_PASSING
  | check :: rest, passing, warning, critical, maintenance =>
    if maintMatch check then
      aggLoop rest passing warning critical true
    else
      match check.Status with
      | some status =>
        if status = HEALTH_PASSING then aggLoop rest true warning critical maintenance
        else if status = HEALTH_WARNING then aggLoop rest passing true critical maintenance
        else if status = HEALTH_CRITICAL then aggLoop rest passing warning true maintenance
        else ""
      | none => ""

/-- `HealthChecks::aggregates_status` (src/health.rs lines 134-184): all
four flags start out false. -/
def HealthChecks.aggregates_status (self : HealthChecks) : String :=
  aggLoop self false false false false

/-- A check on which the loop hard-fails: it does not take the maintenance
branch and its Status is missing or is none of the three recognized
tokens. -/
def isBad (check : HealthCheck) : Bool :=
  if maintMatch check then false
  else
    match check.Status with
    | some status =>
      if status = HEALTH_PASSING then false
      else if status = HEALTH_WARNING then false
      else if status = HEALTH_CRITICAL then false
      else true
    | none => true

/-- A check that sets the `passing` flag. -/
def isPassing (check : HealthCheck) : Bool :=
  if maintMatch check then false
  else
    match check.Status with
    | some status => if status = HEALTH_PASSING then true else false
    | none => false

/-- A check that sets the `warning` flag. -/
def isWarning (check : HealthCheck) : Bool :=
  if maintMatch check then false
  else
    match check.Status with
    | some status =>
      if status = HEALTH_PASSING then false
      else if status = HEALTH_WARNING then true else false
    | none => false

/-- A check that sets the `critical` flag. -/
def isCritical (check : HealthCheck) : Bool :=
  if maintMatch check then false
  else
    match check.Status with
    | some status =>
      if status = HEALTH_PASSING then false
      else if status = HEALTH_WARNING then false
      else if status = HEALTH_CRITICAL then true else false
    | none => false

/-- The flag-precedence result of the final `return` of the loop. -/
def finishFlags (passing warning critical maintenance : Bool) : String :=
  if maintenance then HEALTH_MAINT
  else if critical then HEALTH_CRITICAL
  else if warning then HEALTH_WARNING
  else if passing then HEALTH_PASSING
  else HEALTH_PASSING

/-- Modelled from the spec: the maintenance id rule as the specification
words it ("its check id equals the node-maintenance key, or matches the
service-maintenance-prefix pattern", spec 4.3), i.e. the id starts with
the bare marker `_service_maintenance:`.  This is the refinement target to
compare with the source-derived `maintMatch`. -/
def maintFlaggedSpec (check : HealthCheck) : Bool :=
  match check.CheckID with
  | some id => decide (id = NODE_MAINT) || startsWithLit id SERVICE_MAINT_PRE
  | none => false

/-- A Status that the vocabulary recognizes as a real check status
(passing, warning or critical), by value equality. -/
def validStatus (check : HealthCheck) : Bool :=
  match check.Status with
  | some status =>
    if status = HEALTH_PASSING then true
    else if status = HEALTH_WARNING then true
    else if status = HEALTH_CRITICAL then true
    else false
  | none => false

/-- Modelled from the spec: the aggregation result the specification's
algorithm (spec 4.3 steps 1-3) produces on a list with no hard failure:
strict precedence `maintenance > critical > warning > passing` over the
flags, with the maintenance flag driven by `maintFlaggedSpec`.  This is
the refinement target to compare with `HealthChecks.aggregates_status`. -/
def specAggregate (l : List HealthCheck) : String :=
  if l.any maintFlaggedSpec then HEALTH_MAINT
  else if l.any (fun check => !maintFlaggedSpec check &&
      decide (check.Status = some HEALTH_CRITICAL)) then HEALTH_CRITICAL
  else if l.any (fun check => !maintFlaggedSpec check &&
      decide (check.Status = some HEALTH_WARNING)) then HEALTH_WARNING
  else HEALTH_PASSING

/-- The error type of the transport (`surf::Error`): an HTTP status code
and a message.  `Error::from_str(StatusCode::BadRequest, "client init
err")` is the configuration error the source returns (src/health.rs line
273). -/
structure SurfError where
  status : Nat
  msg : String
deriving DecidableEq, Repr

/-- The configuration error of src/health.rs line 273: status 400
(BadRequest) and the message "client init err". -/
def clientInitErr : SurfError := { status := 400, msg := "client init err" }

/-- Modelled from the spec: a transport request — a method, a path and the
query parameters attached so far (spec 6: the transport client can
"construct a GET request for a given path" and "attach arbitrary
serializable query parameters to a request").  Parameters are kept as an
ordered key-value list. -/
structure Request where
  method : String
  path : String
  query : List (String × String)
deriving DecidableEq, Repr

/-- Modelled from the spec: `Request::set_query` of the transport
collaborator attaches serialized query parameters to the request
(spec 6). -/
def set_query (req : Request) (params : List (String × String)) : Request :=
  { req with query := req.query ++ params }

/-- Modelled from the spec: `api::QueryOptions` (not under src/) is opaque
to this component and merged into the query verbatim (spec 4.4); it is
modelled by its serialized parameter list. -/
structure QueryOptions where
  params : List (String × String)

/-- Modelled from the spec: `api::Client` (not under src/) as the spec
describes it — it can construct a GET request for a given path, and any
step of the transport may fail (spec 6). -/
structure Client where
  newRequest : String → String → Except SurfError Request

/-- The canonical client: request construction succeeds and yields a
request for the given method and path with no parameters attached yet. -/
def pureClient : Client :=
  { newRequest := fun method path => Except.ok { method := method, path := path, query := [] } }

/-- A client whose request construction fails with the given error. -/
def failClient (e : SurfError) : Client :=
  { newRequest := fun _ _ => Except.error e }

/-- Health can be used to query the Health endpoints (src/health.rs lines
197-200). -/
structure Health where
  c : Option Client

/-- The query-string shape of one tag filter (source struct `Tag`,
src/health.rs lines 202-205). -/
structure Tag where
  tag : String

/-- Serialization of `Tag` into query parameters: one repeated `tag`
parameter. -/
def serializeTag (t : Tag) : List (String × String) := [("tag", t.tag)]

/-- The query-string shape of the passing-only filter (source struct
`Passing`, src/health.rs lines 207-210). -/
structure Passing where
  passing : String

/-- Serialization of `Passing` into query parameters. -/
def serializePassing (p : Passing) : List (String × String) := [("passing", p.passing)]

/-- The response shape of `service_address` (source struct
`ServiceAddress`, src/health.rs lines 212-215). -/
structure ServiceAddress where
  address : List String
deriving DecidableEq, Repr

/-- Modelled from the spec: `catalog::Node` (not under src/) is an opaque
external catalog entity that this component only passes through
(spec 6). -/
structure CatalogNode where
  opaqueData : List (String × String) := []
deriving DecidableEq, Repr

/-- Modelled from the spec: `agent::AgentService` (not under src/); the
only fields this component interprets are the optional Address and Port
of the service sub-record (spec 6), the rest is opaque. -/
structure AgentService where
  Address : Option String := none
  Port : Option Nat := none
deriving DecidableEq, Repr

/-- ServiceEntry is used for the health service endpoint (src/health.rs
lines 188-194). -/
structure ServiceEntry where
  Node : Option CatalogNode := none
  Service : Option AgentService := none
  Checks : Option HealthChecks := none
deriving DecidableEq, Repr

/-- The path selection of `Health::service_private` (src/health.rs lines
238-249): a match on the `health_type` string whose arms are the literals
`"service"` and `"ingress"`, with everything else falling to the default
arm. -/
def healthPath (health_type service : String) : String :=
  if health_type = "service" then "/v1/health/connect/" ++ service
  else if health_type = "ingress" then "/v1/health/ingress/" ++ service
  else "/v1/health/service/" ++ service

/-- `Health::service_private` (src/health.rs lines 236-275).  The send /
decode step of the transport (surf's `client.send` followed by
`body_json`) is passed in explicitly as `send`, returning either the
decoded `Vec<ServiceEntry>` or the propagated transport / decode
error. -/
def Health.service_private (self : Health)
    (send : Request → Except SurfError (List ServiceEntry))
    (service : String) (tags : List String) (passing_only : Bool)
    (q : Option QueryOptions) (health_type : String) :
    Except SurfError (List ServiceEntry) :=
  let path := healthPath health_type service
  match self.c with
  | some client =>
    match client.newRequest "GET" path with
    | Except.error e => Except.error e
    | Except.ok req =>
      let req :=
        match q with
        | some opts => set_query req opts.params
        | none => req
      let req := tags.foldl (fun r t => set_query r (serializeTag { tag := t })) req
      let req :=
        if passing_only then set_query req (serializePassing { passing := "1" })
        else req
      send req
  | none => Except.error clientInitErr

/-- `Health::service` (src/health.rs lines 227-234): the tag list holds
the single given tag when it is non-empty, and the variant passed down is
the `CONNECT_HEALTH` constant. -/
def Health.service (self : Health)
    (send : Request → Except SurfError (List ServiceEntry))
    (service : String) (tag : String) (passing_only : Bool)
    (q : Option QueryOptions) : Except SurfError (List ServiceEntry) :=
  let tags : List String := if tag ≠ "" then [tag] else []
  Health.service_private self send service tags passing_only q CONNECT_HEALTH

/-- The per-entry projection step of `Health::service_address`
(src/health.rs lines 281-291): entries whose Service has both Address and
Port present contribute `"address:port"`, all others are skipped. -/
def projectAddress (val : ServiceEntry) : Option String :=
  match val.Service with
  | some v =>
    match v.Address, v.Port with
    | some address, some port => some (address ++ ":" ++ toString port)
    | _, _ => none
  | none => none

/-- `Health::service_address` (src/health.rs lines 277-294): calls
`service` and folds the entries into the address vector, pushing
`"address:port"` for every entry whose Service has both fields. -/
def Health.service_address (self : Health)
    (send : Request → Except SurfError (List ServiceEntry))
    (service : String) (tag : String) (passing_only : Bool)
    (q : Option QueryOptions) : Except SurfError ServiceAddress :=
  match Health.service self send service tag passing_only q with
  | Except.error e => Except.error e
  | Except.ok entry =>
    let service_addresses := entry.foldl
      (fun acc val =>
        match val.Service with
        | some v =>
          match v.Address, v.Port with
          | some address, some port => acc ++ [address ++ ":" ++ toString port]
          | _, _ => acc
        | none => acc)
      []
    Except.ok { address := service_addresses }

/-! Helper lemmas. -/

theorem warnNePass : HEALTH_WARNING ≠ HEALTH_PASSING := by decide

theorem critNePass : HEALTH_CRITICAL ≠ HEALTH_PASSING := by decide

theorem critNeWarn : HEALTH_CRITICAL ≠ HEALTH_WARNING := by decide

/-- One step of unrolling the aggregation loop against the flag
characterization: the loop returns the empty string exactly when some
check hard-fails, and otherwise the flag-precedence result where each
flag is its initial value or-ed with the presence of a check setting
it. -/
theorem aggLoop_eq (l : List HealthCheck) : ∀ p w c m : Bool,
    aggLoop l p w c m =
      if l.any isBad then ""
      else
        finishFlags (p || l.any isPassing) (w || l.any isWarning)
          (c || l.any isCritical) (m || l.any maintMatch) := by
  induction l with
  | nil => intro p w c m; simp [aggLoop, finishFlags]
  | cons check rest ih =>
    intro p w c m
    by_cases hm : maintMatch check = true
    · have hb : isBad check = false := by simp [isBad, hm]
      have hp : isPassing check = false := by simp [isPassing, hm]
      have hw : isWarning check = false := by simp [isWarning, hm]
      have hc : isCritical check = false := by simp [isCritical, hm]
      simp [aggLoop, hm, List.any_cons, hb, hp, hw, hc, ih]
    · have hm' : maintMatch check = false := by simpa using hm
      cases hst : check.Status with
      | none =>
        have hb : isBad check = true := by simp [isBad, hm', hst]
        simp [aggLoop, hm', hst, List.any_cons, hb]
      | some status =>
        by_cases h1 : status = HEALTH_PASSING
        · have hb : isBad check = false := by simp [isBad, hm', hst, h1]
          have hp : isPassing check = true := by simp [isPassing, hm', hst, h1]
          have hw : isWarning check = false := by simp [isWarning, hm', hst, h1]
          have hc : isCritical check = false := by simp [isCritical, hm', hst, h1]
          simp [aggLoop, hm', hst, h1, List.any_cons, hb, hp, hw, hc, ih]
        · by_cases h2 : status = HEALTH_WARNING
          · have hb : isBad check = false := by simp [isBad, hm', hst, h1, h2]
            have hp : isPassing check = false := by simp [isPassing, hm', hst, h1]
            have hw : isWarning check = true := by
              simp [isWarning, hm', hst, h2, warnNePass]
            have hc : isCritical check = false := by simp [isCritical, hm', hst, h1, h2]
            simp [aggLoop, hm', hst, h1, h2, List.any_cons, hb, hp, hw, hc, ih, warnNePass]
          · by_cases h3 : status = HEALTH_CRITICAL
            · have hb : isBad check = false := by simp [isBad, hm', hst, h1, h2, h3]
              have hp : isPassing check = false := by simp [isPassing, hm', hst, h1]
              have hw : isWarning check = false := by simp [isWarning, hm', hst, h1, h2]
              have hc : isCritical check = true := by
                simp [isCritical, hm', hst, h3, critNePass, critNeWarn]
              simp [aggLoop, hm', hst, h1, h2, h3, List.any_cons, hb, hp, hw, hc, ih,
                critNePass, critNeWarn]
            · have hb : isBad check = true := by simp [isBad, hm', hst, h1, h2, h3]
              simp [aggLoop, hm', hst, h1, h2, h3, List.any_cons, hb]

/-- Flag characterization of `aggregates_status`: the empty-string
sentinel exactly when some check hard-fails, otherwise the precedence
result over the four existentially accumulated flags. -/
theorem agg_char (l : HealthChecks) :
    HealthChecks.aggregates_status l =
      if l.any isBad then ""
      else finishFlags (l.any isPassing) (l.any isWarning) (l.any isCritical)
        (l.any maintMatch) := by
  simpa [HealthChecks.aggregates_status] using aggLoop_eq l false false false false

/-- `List.any` only depends on the multiset of elements. -/
theorem any_of_perm {α : Type} {l₁ l₂ : List α} (h : List.Perm l₁ l₂) (f : α → Bool) :
    l₁.any f = l₂.any f := by
  cases e₁ : l₁.any f with
  | true =>
    obtain ⟨x, hx, hfx⟩ := List.any_eq_true.mp e₁
    exact (List.any_eq_true.mpr ⟨x, (List.Perm.mem_iff h).mp hx, hfx⟩).symm
  | false =>
    cases e₂ : l₂.any f with
    | true =>
      obtain ⟨x, hx, hfx⟩ := List.any_eq_true.mp e₂
      have h' := List.any_eq_true.mpr ⟨x, (List.Perm.mem_iff h).mpr hx, hfx⟩
      rw [e₁] at h'
      exact h'
    | false => rfl

/-- A check that the code detects as maintenance, or whose status is one
of the three recognized tokens, never hard-fails. -/
theorem isBad_eq_false {check : HealthCheck}
    (h : maintMatch check = true ∨ validStatus check = true) : isBad check = false := by
  rcases h with hmn | hv
  · simp [isBad, hmn]
  · unfold isBad
    unfold validStatus at hv
    cases hst : check.Status with
    | none => rw [hst] at hv; cases hv
    | some status =>
      rw [hst] at hv
      by_cases h1 : status = HEALTH_PASSING
      · simp [hst, h1, ite_self]
      · by_cases h2 : status = HEALTH_WARNING
        · simp [hst, h1, h2, ite_self]
        · by_cases h3 : status = HEALTH_CRITICAL
          · simp [hst, h1, h2, h3, ite_self]
          · simp [h1, h2, h3] at hv

/-- The tag loop of `service_private` attaches one `tag` parameter per
tag, in order, after whatever the request already carries. -/
theorem foldl_set_query_tags (tags : List String) (req : Request) :
    tags.foldl (fun r t => set_query r (serializeTag { tag := t })) req =
      { req with query := req.query ++ tags.map (fun t => ("tag", t)) } := by
  induction tags generalizing req with
  | nil => simp [set_query]
  | cons t ts ih =>
    rw [List.foldl_cons, ih]
    simp [set_query, serializeTag, List.append_assoc]

/-- The address loop of `service_address` accumulates exactly the
projections of the entries that have both an address and a port. -/
theorem foldl_addresses (entries : List ServiceEntry) (acc : List String) :
    entries.foldl
      (fun acc val =>
        match val.Service with
        | some v =>
          match v.Address, v.Port with
          | some address, some port => acc ++ [address ++ ":" ++ toString port]
          | _, _ => acc
        | none => acc)
      acc =
      acc ++ entries.filterMap projectAddress := by
  induction entries generalizing acc with
  | nil => simp
  | cons e es ih =>
    cases hs : e.Service with
    | none => simp [hs, ih, projectAddress]
    | some v =>
      cases ha : v.Address <;> cases hp : v.Port <;>
        simp [hs, ha, hp, ih, projectAddress, List.append_assoc]

/-- The path the default variant constant maps to. -/
theorem healthPath_connect (name : String) :
    healthPath CONNECT_HEALTH name = "/v1/health/service/" ++ name := by
  unfold healthPath CONNECT_HEALTH
  rw [if_neg (by decide), if_neg (by decide)]

/-- The path the `"service"` variant constant maps to. -/
theorem healthPath_service (name : String) :
    healthPath SERVICE_HEALTH name = "/v1/health/connect/" ++ name := by
  unfold healthPath SERVICE_HEALTH
  rw [if_pos rfl]

/-- The path the `"ingress"` variant constant maps to. -/
theorem healthPath_ingress (name : String) :
    healthPath INGRESS_HEALTH name = "/v1/health/ingress/" ++ name := by
  unfold healthPath INGRESS_HEALTH
  rw [if_neg (by decide), if_pos rfl]

/-! Claim theorems. -/

/-- Claim C1 (code behavior at the failing input): a check list whose only
check carries the service-maintenance id `_service_maintenance:web` (and a
declared critical status) aggregates to `critical`, not to `maintenance`
as the claim requires: the compiled pattern carries Debug-format quotes
and never matches a bare service-maintenance id. -/
theorem claim1_maintenance_id_code_eval :
    HealthChecks.aggregates_status
        [{ CheckID := some "_service_maintenance:web", Status := some "critical" }] =
      HEALTH_CRITICAL ∧ HEALTH_CRITICAL ≠ HEALTH_MAINT := by
  exact ⟨by decide, by decide⟩

/-- Claim C2, counterexample: `service` for name `web` hands the transport
a request whose path is `/v1/health/service/web`, not the connect path
`/v1/health/connect/web` the claim states (the variant string `connect`
falls into the default arm of the path match). -/
theorem claim2_counterexample :
    Health.service { c := some pureClient }
        (fun req => Except.error { status := 0, msg := req.path }) "web" "" false none =
      Except.error { status := 0, msg := "/v1/health/service/web" } ∧
    "/v1/health/service/web" ≠ "/v1/health/connect/web" := by
  exact ⟨rfl, by decide⟩

/-- Claim C2 as amended: `service(name, tag, passing_only, options)` fixes
the variant constant to `connect`, which the path match sends to the
default arm, so the issued request targets `/v1/health/service/{name}`;
the tag filter is exactly the single given tag when it is non-empty and
absent when it is empty, and the passing flag and options are attached as
in C7. -/
theorem claim2_service_path_and_tag (send : Request → Except SurfError (List ServiceEntry))
    (name tag : String) (passing_only : Bool) (q : Option QueryOptions) :
    Health.service { c := some pureClient } send name tag passing_only q =
      send { method := "GET", path := "/v1/health/service/" ++ name,
             query := (match q with | some opts => opts.params | none => []) ++
               (if tag ≠ "" then [("tag", tag)] else []) ++
               (if passing_only then [("passing", "1")] else []) } := by
  unfold Health.service Health.service_private
  rw [healthPath_connect]
  cases q <;> by_cases ht : tag = "" <;> by_cases hp : passing_only <;>
    simp [pureClient, set_query, serializeTag, serializePassing, foldl_set_query_tags,
      ht, hp, List.append_assoc]

/-- Claim C3, counterexample: the `"service"` (plain) variant builds the
connect path, not `/v1/health/service/web` as the claim's mapping
states. -/
theorem claim3_counterexample :
    healthPath SERVICE_HEALTH "web" = "/v1/health/connect/web" ∧
    "/v1/health/connect/web" ≠ "/v1/health/service/web" := by
  exact ⟨rfl, by decide⟩

/-- Claim C3 as amended: the path match sends variant `"service"` to
`/v1/health/connect/{name}`, variant `"ingress"` to
`/v1/health/ingress/{name}`, and every other variant string — including
`"connect"` — to the default arm `/v1/health/service/{name}`; in
particular variant `ingress` for service `web` builds
`/v1/health/ingress/web`. -/
theorem claim3_path_mapping (name : String) :
    healthPath SERVICE_HEALTH name = "/v1/health/connect/" ++ name ∧
    healthPath INGRESS_HEALTH name = "/v1/health/ingress/" ++ name ∧
    healthPath CONNECT_HEALTH name = "/v1/health/service/" ++ name ∧
    healthPath INGRESS_HEALTH "web" = "/v1/health/ingress/web" := by
  exact ⟨healthPath_service name, healthPath_ingress name, healthPath_connect name, rfl⟩

/-- Claim C4, counterexample: the single check with id
`_service_maintenance:web` and status `passing` is maintenance-flagged by
the specification's id rule, yet the code aggregates the list to
`passing` while the specification's precedence produces `maintenance`. -/
theorem claim4_counterexample :
    maintFlaggedSpec { CheckID := some "_service_maintenance:web", Status := some "passing" } = true ∧
    HealthChecks.aggregates_status
        [{ CheckID := some "_service_maintenance:web", Status := some "passing" }] =
      HEALTH_PASSING ∧
    specAggregate [{ CheckID := some "_service_maintenance:web", Status := some "passing" }] =
      HEALTH_MAINT ∧
    HEALTH_PASSING ≠ HEALTH_MAINT := by
  exact ⟨by decide, by decide, by decide, by decide⟩

/-- Claim C4 as amended: for every check list in which every check is
either detected as maintenance by the code's pattern (id equal to
`_node_maintenance`, or starting with the Debug-quoted pattern literal) or
carries a Status equal to `passing`, `warning` or `critical`, the result
is the one token chosen by strict precedence
maintenance > critical > warning > passing over the accumulated flags,
and the empty list yields `passing`. -/
theorem claim4_precedence (l : HealthChecks)
    (h : l.all (fun check => maintMatch check || validStatus check) = true) :
    HealthChecks.aggregates_status l =
      (if l.any maintMatch then HEALTH_MAINT
       else if l.any isCritical then HEALTH_CRITICAL
       else if l.any isWarning then HEALTH_WARNING
       else HEALTH_PASSING) := by
  have h' := List.all_eq_true.mp h
  have hbad : l.any isBad = false := by
    cases e : l.any isBad with
    | false => rfl
    | true =>
      obtain ⟨check, hc, hbadc⟩ := List.any_eq_true.mp e
      have hor : maintMatch check = true ∨ validStatus check = true := by
        have := h' check hc
        rcases Bool.or_eq_true_iff.mp this with hx | hx
        · exact Or.inl hx
        · exact Or.inr hx
      rw [isBad_eq_false hor] at hbadc
      cases hbadc
  rw [agg_char, hbad]
  unfold finishFlags
  by_cases hm : l.any maintMatch <;> by_cases hc : l.any isCritical <;>
    by_cases hw : l.any isWarning <;> by_cases hp : l.any isPassing <;>
    simp [hm, hc, hw, hp]

/-- Witness for the amended C4: the list of the spec's own example — a
node-maintenance check followed by a critical check — satisfies the
premise and aggregates by precedence (to `maintenance`). -/
theorem claim4_precedence_witness :
    ([{ CheckID := some "_node_maintenance" }, { Status := some "critical" }] : HealthChecks).all
        (fun check => maintMatch check || validStatus check) = true ∧
    HealthChecks.aggregates_status
        [{ CheckID := some "_node_maintenance" }, { Status := some "critical" }] =
      (if ([{ CheckID := some "_node_maintenance" }, { Status := some "critical" }] : HealthChecks).any maintMatch then HEALTH_MAINT
       else if ([{ CheckID := some "_node_maintenance" }, { Status := some "critical" }] : HealthChecks).any isCritical then HEALTH_CRITICAL
       else if ([{ CheckID := some "_node_maintenance" }, { Status := some "critical" }] : HealthChecks).any isWarning then HEALTH_WARNING
       else HEALTH_PASSING) :=
  ⟨by decide, claim4_precedence _ (by decide)⟩

/-- Claim C5, counterexample: a check whose id starts with a literal
double quote followed by the service-maintenance marker is *not*
maintenance-flagged by the specification's id rule, and its Status is
absent, yet aggregation returns `maintenance` rather than the empty
sentinel: the code's quoted pattern does match such an id and skips the
status check. -/
theorem claim5_counterexample :
    maintFlaggedSpec { CheckID := some "\"_service_maintenance:\"x", Status := none } = false ∧
    ({ CheckID := some "\"_service_maintenance:\"x", Status := none } : HealthCheck).Status = none ∧
    HealthChecks.aggregates_status
        [{ CheckID := some "\"_service_maintenance:\"x", Status := none }] = HEALTH_MAINT ∧
    HEALTH_MAINT ≠ "" := by
  exact ⟨by decide, rfl, by decide, by decide⟩

/-- Claim C5 as amended: for every check list containing at least one
check that the code does not detect as maintenance (id differing from
`_node_maintenance` and not starting with the Debug-quoted pattern
literal) and whose Status is absent or not one of the three recognized
tokens, `aggregates_status` yields the empty-string sentinel. -/
theorem claim5_hard_failure (l : HealthChecks) (h : l.any isBad = true) :
    HealthChecks.aggregates_status l = "" := by
  rw [agg_char, h]
  rfl

/-- Witness for the amended C5: a single check with a missing Status and
no maintenance id aggregates to the empty sentinel. -/
theorem claim5_hard_failure_witness :
    ([{ Status := none }] : HealthChecks).any isBad = true ∧
    HealthChecks.aggregates_status [{ Status := none }] = "" :=
  ⟨by decide, claim5_hard_failure _ (by decide)⟩

/-- Claim C6: `aggregates_status` is order-independent — permuting the
check list never changes the result. -/
theorem claim6_perm_invariant (l1 l2 : HealthChecks) (h : List.Perm l1 l2) :
    HealthChecks.aggregates_status l1 = HealthChecks.aggregates_status l2 := by
  rw [agg_char, agg_char, any_of_perm h isBad, any_of_perm h isPassing,
    any_of_perm h isWarning, any_of_perm h isCritical, any_of_perm h maintMatch]

/-- Witness for C6: swapping a passing and a critical check leaves the
aggregate unchanged. -/
theorem claim6_perm_invariant_witness :
    HealthChecks.aggregates_status [{ Status := some "passing" }, { Status := some "critical" }] =
      HealthChecks.aggregates_status [{ Status := some "critical" }, { Status := some "passing" }] :=
  claim6_perm_invariant _ _ (List.Perm.swap _ _ _)

/-- Claim C7: the built query carries the caller's options verbatim,
then one repeated `tag` parameter per requested tag in order with
duplicates preserved, then `passing=1` exactly when `passing_only` is
true; in particular tags `["v2"]` with `passing_only = true` yield
`tag=v2&passing=1`. -/
theorem claim7_query_params :
    (∀ (send : Request → Except SurfError (List ServiceEntry)) (q : Option QueryOptions)
        (tags : List String) (name health_type : String) (passing_only : Bool),
      Health.service_private { c := some pureClient } send name tags passing_only q health_type =
        send { method := "GET", path := healthPath health_type name,
               query := (match q with | some opts => opts.params | none => []) ++
                 tags.map (fun t => ("tag", t)) ++
                 (if passing_only then [("passing", "1")] else []) }) ∧
    (∀ send : Request → Except SurfError (List ServiceEntry),
      Health.service_private { c := some pureClient } send "web" ["v2"] true none INGRESS_HEALTH =
        send { method := "GET", path := "/v1/health/ingress/web",
               query := [("tag", "v2"), ("passing", "1")] }) := by
  constructor
  · intro send q tags name health_type passing_only
    simp only [Health.service_private, pureClient]
    cases q <;> by_cases hp : passing_only <;>
      simp only [foldl_set_query_tags, hp] <;>
      simp [set_query, serializeTag, serializePassing, List.append_assoc]
  · intro send
    rfl

/-- Claim C8: with no client configured the query fails at once with the
configuration error whatever the transport would do; with a client
configured, a failing send/decode step or a failing request construction
is propagated to the caller unchanged. -/
theorem claim8_error_handling :
    (∀ (send : Request → Except SurfError (List ServiceEntry)) (name tag : String)
        (passing_only : Bool) (q : Option QueryOptions),
      Health.service { c := none } send name tag passing_only q =
        Except.error clientInitErr) ∧
    (∀ (e : SurfError) (name tag : String) (passing_only : Bool) (q : Option QueryOptions),
      Health.service { c := some pureClient } (fun _ => Except.error e) name tag passing_only q =
        Except.error e) ∧
    (∀ (e : SurfError) (send : Request → Except SurfError (List ServiceEntry))
        (name tag : String) (passing_only : Bool) (q : Option QueryOptions),
      Health.service { c := some (failClient e) } send name tag passing_only q =
        Except.error e) := by
  refine ⟨fun send name tag passing_only q => rfl,
    fun e name tag passing_only q => rfl,
    fun e send name tag passing_only q => rfl⟩

/-- Claim C9: `service_address` maps the entries the transport returned to
exactly the ordered `"host:port"` projections of the entries whose Service
has both an Address and a Port, skipping the rest silently; on the
two-entry example with one complete service and one missing its port the
result is exactly `["10.0.0.1:8080"]`. -/
theorem claim9_service_address :
    (∀ (entries : List ServiceEntry) (name tag : String) (passing_only : Bool)
        (q : Option QueryOptions),
      Health.service_address { c := some pureClient } (fun _ => Except.ok entries)
          name tag passing_only q =
        Except.ok { address := entries.filterMap projectAddress }) ∧
    Health.service_address { c := some pureClient }
        (fun _ => Except.ok
          [{ Service := some { Address := some "10.0.0.1", Port := some 8080 } },
           { Service := some { Address := some "10.0.0.2", Port := none } }])
        "web" "" false none =
      Except.ok { address := ["10.0.0.1:8080"] } := by
  constructor
  · intro entries name tag passing_only q
    unfold Health.service_address
    have hs : Health.service { c := some pureClient } (fun _ => Except.ok entries)
        name tag passing_only q = Except.ok entries := rfl
    rw [hs]
    simp only [foldl_addresses]
    simp
  · rfl

/-- Claim C10: whatever the input list, `aggregates_status` returns one of
the five strings `maintenance`, `critical`, `warning`, `passing` or the
empty sentinel, and never the wildcard `any`. -/
theorem claim10_result_range (l : HealthChecks) :
    (HealthChecks.aggregates_status l = HEALTH_MAINT ∨
     HealthChecks.aggregates_status l = HEALTH_CRITICAL ∨
     HealthChecks.aggregates_status l = HEALTH_WARNING ∨
     HealthChecks.aggregates_status l = HEALTH_PASSING ∨
     HealthChecks.aggregates_status l = "") ∧
    HealthChecks.aggregates_status l ≠ HEALTH_ANY := by
  rw [agg_char]
  unfold finishFlags
  by_cases h0 : l.any isBad <;> by_cases hm : l.any maintMatch <;>
    by_cases hc : l.any isCritical <;> by_cases hw : l.any isWarning <;>
    by_cases hp : l.any isPassing <;>
    simp [h0, hm, hc, hw, hp] <;> decide

end ConsulHealth
